import Mathlib

/-!
Verification of the raito-io/sdk access-provider client
(`internal/services/access_provider.go`) against its specification.

The per-resource client code is embedded shallowly: each Go function
becomes a Lean function over an explicit model of the GraphQL response
variants.  The remote transport (`schema.*` query functions) is
abstracted as a function argument from the reified query arguments to a
response variant, mirroring the fact that the Go code treats it as an
opaque call.  The generic pagination executor (`internal.PaginationExecutor`)
is not among the sampled sources, so it is modelled from the spec
(sections 4.3 and 5); those definitions say so in their doc comments.
-/

namespace RaitoSdk

/-! ## Domain payload types

The client never inspects the contents of these values; each is modelled
as a single-field structure carrying an identifying token. -/

/-- Payload of `types.AccessProvider`.  The client code moves these values
around without looking inside them. -/
structure AccessProvider where
  name : String
deriving DecidableEq, Repr

/-- Payload of `types.AccessProviderOrderByInput`. -/
structure AccessProviderOrderByInput where
  field : String
deriving DecidableEq, Repr

/-- Payload of `types.AccessProviderFilterInput`. -/
structure AccessProviderFilterInput where
  field : String
deriving DecidableEq, Repr

/-- Payload of `types.AccessProviderWhoListItem`. -/
structure AccessProviderWhoListItem where
  name : String
deriving DecidableEq, Repr

/-- Payload of `types.AccessProviderWhatListItem`. -/
structure AccessProviderWhatListItem where
  name : String
deriving DecidableEq, Repr

/-- Payload of `schema.AccessProviderWhoOrderByInput`. -/
structure AccessProviderWhoOrderByInput where
  field : String
deriving DecidableEq, Repr

/-- Payload of `schema.AccessWhatOrderByInput`. -/
structure AccessWhatOrderByInput where
  field : String
deriving DecidableEq, Repr

/-- Model of `schema.PageInfo`: whether another page exists, and the cursor
with which to request it (spec section 3). -/
structure PageInfo where
  hasNextPage : Bool
  endCursor : Option String
deriving DecidableEq, Repr

/-! ## Errors

The error constructors `NewErrClient`, `NewErrPermissionDenied` and
`NewErrNotFound` live in a services file that is not among the sampled
sources; they are modelled from the spec's error taxonomy (section 7),
which requires each kind to keep its distinct identity through the error
value. -/

/-- Error values produced by the client, one constructor per distinct
error kind of spec section 7 plus the literal errors built in
`access_provider.go` itself (`errors.New("unreachable")` and the
`unexpected type` formatting of the default switch arms). -/
inductive SdkError
  | client (msg : String)
  | permissionDenied (operation msg : String)
  | notFound (id typeName msg : String)
  | unexpectedType (typeName : String)
  | unreachable
  | protocolViolation
deriving DecidableEq, Repr

/-- Modelled from the spec: `NewErrClient` wraps a transport failure once,
keeping it opaque (spec section 7, TransportError). -/
def NewErrClient (msg : String) : SdkError :=
  SdkError.client msg

/-- Modelled from the spec: `NewErrPermissionDenied` builds a
permission-denied error carrying the failed operation and the remote
message (spec section 7, PermissionDenied). -/
def NewErrPermissionDenied (operation msg : String) : SdkError :=
  SdkError.permissionDenied operation msg

/-- Modelled from the spec: `NewErrNotFound` builds a not-found error
carrying the identifier, the resource type and the remote message
(spec section 7, NotFound). -/
def NewErrNotFound (id typeName msg : String) : SdkError :=
  SdkError.notFound id typeName msg

/-! ## Transport outcome

A remote call either yields a decoded response variant or fails at the
transport layer (`err != nil` in the Go code). -/

/-- Outcome of one remote round trip: a decoded response, or the transport
error branch that the Go code checks first (`if err != nil`). -/
inductive RemoteOutcome (R : Type)
  | ok (response : R)
  | transportError (msg : String)
deriving DecidableEq, Repr

/-! ## CRUD methods (`CreateAccessProvider`, `UpdateAccessProvider`,
`DeleteAccessProvider`, `GetAccessProvider`)

Each Go method switches on the dynamic type of the response union; the
union is embedded as an inductive with one constructor per `case` arm
plus one constructor for the `default` arm. -/

/-- Response union of the `CreateAccessProvider` mutation. -/
inductive CreateAccessProviderResponse
  | createAccessProvider (ap : AccessProvider)
  | permissionDeniedError (msg : String)
  | otherResponse (typeName : String)
deriving DecidableEq, Repr

/-- Embedding of `AccessProviderClient.CreateAccessProvider`: the returned
pair models the Go `(*types.AccessProvider, error)` result. -/
def CreateAccessProvider (remote : RemoteOutcome CreateAccessProviderResponse) :
    Option AccessProvider × Option SdkError :=
  match remote with
  | .transportError msg => (none, some (NewErrClient msg))
  | .ok (.createAccessProvider ap) => (some ap, none)
  | .ok (.permissionDeniedError msg) =>
      (none, some (NewErrPermissionDenied "createAccessProvider" msg))
  | .ok (.otherResponse typeName) => (none, some (SdkError.unexpectedType typeName))

/-- Response union of the `UpdateAccessProvider` mutation. -/
inductive UpdateAccessProviderResponse
  | updateAccessProvider (ap : AccessProvider)
  | permissionDeniedError (msg : String)
  | otherResponse (typeName : String)
deriving DecidableEq, Repr

/-- Embedding of `AccessProviderClient.UpdateAccessProvider`. -/
def UpdateAccessProvider (remote : RemoteOutcome UpdateAccessProviderResponse) :
    Option AccessProvider × Option SdkError :=
  match remote with
  | .transportError msg => (none, some (NewErrClient msg))
  | .ok (.updateAccessProvider ap) => (some ap, none)
  | .ok (.permissionDeniedError msg) =>
      (none, some (NewErrPermissionDenied "updateAccessProvider" msg))
  | .ok (.otherResponse typeName) => (none, some (SdkError.unexpectedType typeName))

/-- Response union of the `DeleteAccessProvider` mutation. -/
inductive DeleteAccessProviderResponse
  | deleteAccessProvider
  | permissionDeniedError (msg : String)
  | notFoundError (msg : String)
  | otherResponse (typeName : String)
deriving DecidableEq, Repr

/-- Embedding of `AccessProviderClient.DeleteAccessProvider`: the result
models the Go `error` return (`none` on success). -/
def DeleteAccessProvider (id : String)
    (remote : RemoteOutcome DeleteAccessProviderResponse) : Option SdkError :=
  match remote with
  | .transportError msg => some (NewErrClient msg)
  | .ok .deleteAccessProvider => none
  | .ok (.permissionDeniedError msg) =>
      some (NewErrPermissionDenied "deleteAccessProvider" msg)
  | .ok (.notFoundError msg) => some (NewErrNotFound id "accessProvider" msg)
  | .ok (.otherResponse typeName) => some (SdkError.unexpectedType typeName)

/-- Response union of the `GetAccessProvider` query. -/
inductive GetAccessProviderResponse
  | accessProvider (ap : AccessProvider)
  | notFoundError (msg : String)
  | permissionDeniedError (msg : String)
  | otherResponse (typeName : String)
deriving DecidableEq, Repr

/-- Embedding of `AccessProviderClient.GetAccessProvider`. -/
def GetAccessProvider (id : String)
    (remote : RemoteOutcome GetAccessProviderResponse) :
    Option AccessProvider × Option SdkError :=
  match remote with
  | .transportError msg => (none, some (NewErrClient msg))
  | .ok (.accessProvider ap) => (some ap, none)
  | .ok (.notFoundError msg) => (none, some (NewErrNotFound id "accessProvider" msg))
  | .ok (.permissionDeniedError msg) =>
      (none, some (NewErrPermissionDenied "getAccessProvider" msg))
  | .ok (.otherResponse typeName) => (none, some (SdkError.unexpectedType typeName))

/-! ## List options

`AccessProviderListOptions` is built by applying caller-supplied option
functions in order, exactly as the Go `for _, op := range ops` loop does. -/

/-- Embedding of `AccessProviderListOptions`. -/
structure AccessProviderListOptions where
  order : List AccessProviderOrderByInput
  filter : Option AccessProviderFilterInput
deriving DecidableEq, Repr

/-- Embedding of `WithAccessProviderListOrder`: appends its inputs to the
accumulated order list. -/
def WithAccessProviderListOrder (input : List AccessProviderOrderByInput) :
    AccessProviderListOptions → AccessProviderListOptions :=
  fun options => { options with order := options.order ++ input }

/-- Embedding of `WithAccessProviderListFilter`: overwrites the filter
field with its input. -/
def WithAccessProviderListFilter (input : Option AccessProviderFilterInput) :
    AccessProviderListOptions → AccessProviderListOptions :=
  fun options => { options with filter := input }

/-- Embedding of the option-application loop at the start of
`ListAccessProviders`: starts from the zero value and applies each
option function in order. -/
def applyOptions
    (ops : List (AccessProviderListOptions → AccessProviderListOptions)) :
    AccessProviderListOptions :=
  ops.foldl (fun options op => op options) ⟨[], none⟩

/-- Embedding of `AccessProviderWhoListOptions`. -/
structure AccessProviderWhoListOptions where
  order : List AccessProviderWhoOrderByInput
deriving DecidableEq, Repr

/-- Embedding of `WithAccessProviderWhoListOrder`. -/
def WithAccessProviderWhoListOrder (input : List AccessProviderWhoOrderByInput) :
    AccessProviderWhoListOptions → AccessProviderWhoListOptions :=
  fun options => { options with order := options.order ++ input }

/-- Embedding of `AccessProviderWhatListOptions`. -/
structure AccessProviderWhatListOptions where
  order : List AccessWhatOrderByInput
deriving DecidableEq, Repr

/-- Embedding of `WithAccessProviderWhatListOrder`. -/
def WithAccessProviderWhatListOrder (input : List AccessWhatOrderByInput) :
    AccessProviderWhatListOptions → AccessProviderWhatListOptions :=
  fun options => { options with order := options.order ++ input }

/-! ## Edges and edge extractors

Each edge pairs a cursor with an optional node.  The node sits behind a
Go interface, so besides the expected concrete type it may carry an
unexpected shape; the Go extractors narrow it with an unchecked type
assertion, which panics on a mismatch.  That panic is modelled as the
explicit `panicked` outcome. -/

/-- Dynamic content of the node interface of an access-provider list edge:
the expected concrete type, or any other implementation of the
interface. -/
inductive AccessProviderNode
  | accessProvider (value : AccessProvider)
  | unexpectedShape (typeName : String)
deriving DecidableEq, Repr

/-- Embedding of `schema.AccessProviderPageEdgesEdge`. -/
structure AccessProviderPageEdgesEdge where
  cursor : Option String
  node : Option AccessProviderNode
deriving DecidableEq, Repr

/-- Dynamic content of the node interface of a who-list edge. -/
inductive WhoItemNode
  | accessWhoItem (value : AccessProviderWhoListItem)
  | unexpectedShape (typeName : String)
deriving DecidableEq, Repr

/-- Embedding of `types.AccessProviderWhoListEdgesEdge`. -/
structure AccessProviderWhoListEdgesEdge where
  cursor : Option String
  node : Option WhoItemNode
deriving DecidableEq, Repr

/-- Dynamic content of the node interface of a what-list edge. -/
inductive WhatItemNode
  | accessWhatItem (value : AccessProviderWhatListItem)
  | unexpectedShape (typeName : String)
deriving DecidableEq, Repr

/-- Embedding of `types.AccessProviderWhatListEdgesEdge`. -/
structure AccessProviderWhatListEdgesEdge where
  cursor : Option String
  node : Option WhatItemNode
deriving DecidableEq, Repr

/-- Result of one edge-extractor call.  `ok` models the Go triple
`(cursor, item, nil)`; `error` models `(cursor?, nil, err)`;
`panicked` models a run-time panic of the extractor body, after which
nothing is returned at all. -/
inductive EdgeResult (α : Type)
  | ok (cursor : Option String) (item : Option α)
  | error (e : SdkError)
  | panicked
deriving DecidableEq, Repr

/-- Embedding of the `edgeFn` closure of `ListAccessProviders`: a nil node
yields the cursor with no item and no error; a node of the expected
concrete type yields the cursor and the item; any other node shape hits
the unchecked type assertion and panics. -/
def listAccessProvidersEdgeFn (edge : AccessProviderPageEdgesEdge) :
    EdgeResult AccessProvider :=
  match edge.node with
  | none => .ok edge.cursor none
  | some (.accessProvider v) => .ok edge.cursor (some v)
  | some (.unexpectedShape _) => .panicked

/-- Embedding of the `edgeFn` closure of `GetAccessProviderWhoList`. -/
def getAccessProviderWhoListEdgeFn (edge : AccessProviderWhoListEdgesEdge) :
    EdgeResult AccessProviderWhoListItem :=
  match edge.node with
  | none => .ok edge.cursor none
  | some (.accessWhoItem v) => .ok edge.cursor (some v)
  | some (.unexpectedShape _) => .panicked

/-- Embedding of the `edgeFn` closure of
`GetAccessProviderWhatDataObjectList`. -/
def getAccessProviderWhatDataObjectListEdgeFn
    (edge : AccessProviderWhatListEdgesEdge) :
    EdgeResult AccessProviderWhatListItem :=
  match edge.node with
  | none => .ok edge.cursor none
  | some (.accessWhatItem v) => .ok edge.cursor (some v)
  | some (.unexpectedShape _) => .panicked

/-- The item carried by an access-provider list edge, when its node is
present and of the expected shape. -/
def nodeItem (edge : AccessProviderPageEdgesEdge) : Option AccessProvider :=
  match edge.node with
  | some (.accessProvider v) => some v
  | _ => none

/-! ## Page loaders

Each `loadPageFn` closure calls one generated query function with the
cursor it received, the constant page size 25, and the option values
captured by the closure.  The query call is reified as a structure so
that the arguments of every invocation are visible; the remote itself is
an arbitrary function from those arguments to a response variant. -/

/-- Arguments of one `schema.ListAccessProviders` call. -/
structure ListAccessProvidersQuery where
  cursor : Option String
  pageSize : Option Int
  filter : Option AccessProviderFilterInput
  order : List AccessProviderOrderByInput
deriving DecidableEq, Repr

/-- The query arguments built by the `loadPageFn` of
`ListAccessProviders`: the received cursor, `ptr.Int(25)`, and the
captured option values, verbatim. -/
def listAccessProvidersQuery (options : AccessProviderListOptions)
    (cursor : Option String) : ListAccessProvidersQuery :=
  ⟨cursor, some 25, options.filter, options.order⟩

/-- Response union of the `ListAccessProviders` query. -/
inductive ListAccessProvidersResponse
  | pagedResult (pageInfo : PageInfo) (edges : List AccessProviderPageEdgesEdge)
  | permissionDeniedError (msg : String)
  | otherResponse (typeName : String)
deriving DecidableEq, Repr

/-- Raw shape of one `loadPageFn` return in Go:
`(*schema.PageInfo, []Edge, error)`, each component possibly nil. -/
structure GoLoadResult (E : Type) where
  pageInfo : Option PageInfo
  edges : Option (List E)
  error : Option SdkError
deriving DecidableEq, Repr

/-- Embedding of the `loadPageFn` closure of `ListAccessProviders`. -/
def listAccessProvidersLoadPageFn
    (remote : ListAccessProvidersQuery → RemoteOutcome ListAccessProvidersResponse)
    (options : AccessProviderListOptions) (cursor : Option String) :
    GoLoadResult AccessProviderPageEdgesEdge :=
  match remote (listAccessProvidersQuery options cursor) with
  | .transportError msg => ⟨none, none, some (NewErrClient msg)⟩
  | .ok (.pagedResult pi edges) => ⟨some pi, some edges, none⟩
  | .ok (.permissionDeniedError msg) =>
      ⟨none, none, some (NewErrPermissionDenied "listAccessProviders" msg)⟩
  | .ok (.otherResponse _) => ⟨none, none, some SdkError.unreachable⟩

/-- Arguments of one `schema.GetAccessProviderWhoList` call.  The filter
argument is the literal `nil` at the call site; it is carried so that the
call shape matches the Go signature. -/
structure GetAccessProviderWhoListQuery where
  id : String
  cursor : Option String
  pageSize : Option Int
  filter : Option Unit
  order : List AccessProviderWhoOrderByInput
deriving DecidableEq, Repr

/-- The query arguments built by the `loadPageFn` of
`GetAccessProviderWhoList`. -/
def getAccessProviderWhoListQuery (id : String)
    (options : AccessProviderWhoListOptions) (cursor : Option String) :
    GetAccessProviderWhoListQuery :=
  ⟨id, cursor, some 25, none, options.order⟩

/-- Inner union of the who-list response (`ap.WhoList`). -/
inductive WhoListResult
  | pagedResult (pageInfo : PageInfo) (edges : List AccessProviderWhoListEdgesEdge)
  | permissionDeniedError (msg : String)
  | otherResult (typeName : String)
deriving DecidableEq, Repr

/-- Outer union of the `GetAccessProviderWhoList` response
(`output.AccessProvider`). -/
inductive GetAccessProviderWhoListResponse
  | accessProvider (whoList : WhoListResult)
  | notFoundError (msg : String)
  | permissionDeniedError (msg : String)
  | otherResponse (typeName : String)
deriving DecidableEq, Repr

/-- Embedding of the `loadPageFn` closure of `GetAccessProviderWhoList`.
The inner switch has no default arm: an unknown inner variant falls
through both switches to the trailing `errors.New("unreachable")`. -/
def getAccessProviderWhoListLoadPageFn
    (remote : GetAccessProviderWhoListQuery → RemoteOutcome GetAccessProviderWhoListResponse)
    (id : String) (options : AccessProviderWhoListOptions) (cursor : Option String) :
    GoLoadResult AccessProviderWhoListEdgesEdge :=
  match remote (getAccessProviderWhoListQuery id options cursor) with
  | .transportError msg => ⟨none, none, some (NewErrClient msg)⟩
  | .ok (.accessProvider (.pagedResult pi edges)) => ⟨some pi, some edges, none⟩
  | .ok (.accessProvider (.permissionDeniedError msg)) =>
      ⟨none, none, some (NewErrPermissionDenied "accessProviderWhoList" msg)⟩
  | .ok (.accessProvider (.otherResult _)) => ⟨none, none, some SdkError.unreachable⟩
  | .ok (.notFoundError msg) =>
      ⟨none, none, some (NewErrNotFound "AccessProvider" id msg)⟩
  | .ok (.permissionDeniedError msg) =>
      ⟨none, none, some (NewErrPermissionDenied "accessProvider" msg)⟩
  | .ok (.otherResponse typeName) =>
      ⟨none, none, some (SdkError.unexpectedType typeName)⟩

/-- Arguments of one `schema.GetAccessProviderWhatDataObjectList` call. -/
structure GetAccessProviderWhatDataObjectListQuery where
  id : String
  cursor : Option String
  pageSize : Option Int
  filter : Option Unit
  order : List AccessWhatOrderByInput
deriving DecidableEq, Repr

/-- The query arguments built by the `loadPageFn` of
`GetAccessProviderWhatDataObjectList`. -/
def getAccessProviderWhatDataObjectListQuery (id : String)
    (options : AccessProviderWhatListOptions) (cursor : Option String) :
    GetAccessProviderWhatDataObjectListQuery :=
  ⟨id, cursor, some 25, none, options.order⟩

/-- Inner union of the what-list response (`ap.WhatDataObjects`). -/
inductive WhatListResult
  | pagedResult (pageInfo : PageInfo) (edges : List AccessProviderWhatListEdgesEdge)
  | permissionDeniedError (msg : String)
  | otherResult (typeName : String)
deriving DecidableEq, Repr

/-- Outer union of the `GetAccessProviderWhatDataObjectList` response. -/
inductive GetAccessProviderWhatDataObjectListResponse
  | accessProvider (whatList : WhatListResult)
  | notFoundError (msg : String)
  | permissionDeniedError (msg : String)
  | otherResponse (typeName : String)
deriving DecidableEq, Repr

/-- Embedding of the `loadPageFn` closure of
`GetAccessProviderWhatDataObjectList`. -/
def getAccessProviderWhatDataObjectListLoadPageFn
    (remote : GetAccessProviderWhatDataObjectListQuery →
      RemoteOutcome GetAccessProviderWhatDataObjectListResponse)
    (id : String) (options : AccessProviderWhatListOptions) (cursor : Option String) :
    GoLoadResult AccessProviderWhatListEdgesEdge :=
  match remote (getAccessProviderWhatDataObjectListQuery id options cursor) with
  | .transportError msg => ⟨none, none, some (NewErrClient msg)⟩
  | .ok (.accessProvider (.pagedResult pi edges)) => ⟨some pi, some edges, none⟩
  | .ok (.accessProvider (.permissionDeniedError msg)) =>
      ⟨none, none, some (NewErrPermissionDenied "accessProviderWhatDataObjectList" msg)⟩
  | .ok (.accessProvider (.otherResult _)) => ⟨none, none, some SdkError.unreachable⟩
  | .ok (.notFoundError msg) =>
      ⟨none, none, some (NewErrNotFound "AccessProvider" id msg)⟩
  | .ok (.permissionDeniedError msg) =>
      ⟨none, none, some (NewErrPermissionDenied "accessProvider" msg)⟩
  | .ok (.otherResponse typeName) =>
      ⟨none, none, some (SdkError.unexpectedType typeName)⟩

/-! ## Pagination executor

`internal.PaginationExecutor` is not among the sampled sources.  It is
modelled from spec sections 4.3 (state machine) and 5 (cancellation
checkpoints): a worker repeatedly loads a page, drains its edges in
order pushing one stream element per extracted item, follows
`PageInfo.endCursor` while `hasNextPage` is true, and terminates on the
first error, on exhaustion, or at the first cancellation checkpoint that
observes the signal.  Checkpoints sit immediately before each loader
call and immediately before each item push; cancellation is modelled by
the index of the first checkpoint at which the signal is visible.
Because an adversarial loader could page forever, the recursion carries
explicit fuel; `outOfFuel` marks only the exhaustion of that modelling
budget, never a behavior of the modelled worker. -/

/-- Modelled from the spec: the unit pushed to the consumer
(`types.ListItem`): exactly one of item and error is populated
(spec section 3). -/
inductive ListItem (α : Type)
  | item (value : α)
  | error (e : SdkError)
deriving DecidableEq, Repr

/-- One fetched page: its `PageInfo` and its ordered edges. -/
structure Page (E : Type) where
  pageInfo : PageInfo
  edges : List E
deriving DecidableEq, Repr

/-- Result of one loader call as consumed by the executor: a page, or a
terminal error. -/
inductive LoaderResult (E : Type)
  | ok (page : Page E)
  | err (e : SdkError)
deriving DecidableEq, Repr

/-- Bridge from the raw Go triple to the executor's view: a non-nil error
takes the error path, otherwise the page data is used. -/
def toLoaderResult (r : GoLoadResult E) : LoaderResult E :=
  match r.error with
  | some e => .err e
  | none => .ok ⟨r.pageInfo.getD ⟨false, none⟩, r.edges.getD []⟩

/-- Modelled from the spec: whether the cancellation signal is visible at
checkpoint index `n`.  `cancelAt = some k` means the signal fires so
that checkpoint `k` is the first to observe it; `none` means the
context is never cancelled. -/
def checkCancel (cancelAt : Option Nat) (n : Nat) : Bool :=
  match cancelAt with
  | none => false
  | some k => decide (k ≤ n)

/-- Outcome of draining one page's edges. -/
inductive DrainStep
  | finished
  | stoppedErr
  | stoppedCancel
  | stoppedCrash
deriving DecidableEq, Repr

/-- State after draining (part of) one page's edges: the stream elements
pushed, the next checkpoint index, and how draining ended. -/
structure DrainResult (α : Type) where
  items : List (ListItem α)
  counter : Nat
  step : DrainStep
deriving DecidableEq, Repr

/-- Terminal state of one executor run (spec section 4.3), plus the
modelling-only fuel-exhaustion marker. -/
inductive EndState
  | done
  | errored
  | cancelled
  | crashed
  | outOfFuel
deriving DecidableEq, Repr

/-- Observable outcome of one executor run: the stream contents in push
order, the number of loader calls issued, and the terminal state. -/
structure RunResult (α : Type) where
  items : List (ListItem α)
  loaderCalls : Nat
  endState : EndState
deriving DecidableEq, Repr

/-- Modelled from the spec: the `Draining(page)` state of section 4.3.
Edges are visited in order; an extractor error pushes one error element
and stops; an item is pushed behind a cancellation checkpoint; an absent
item advances without emitting; an extractor panic crashes the worker. -/
def drainEdges (X : E → EdgeResult α) (cancelAt : Option Nat) :
    List E → Nat → DrainResult α
  | [], n => ⟨[], n, .finished⟩
  | e :: rest, n =>
    match X e with
    | .panicked => ⟨[], n, .stoppedCrash⟩
    | .error err =>
      if checkCancel cancelAt n then ⟨[], n, .stoppedCancel⟩
      else ⟨[ListItem.error err], n + 1, .stoppedErr⟩
    | .ok _ none => drainEdges X cancelAt rest n
    | .ok _ (some it) =>
      if checkCancel cancelAt n then ⟨[], n, .stoppedCancel⟩
      else
        let r := drainEdges X cancelAt rest (n + 1)
        ⟨ListItem.item it :: r.items, r.counter, r.step⟩

/-- Modelled from the spec: the fetch/drain loop of section 4.3.  Each
iteration checks cancellation, issues one loader call, drains the page,
and either stops (`hasNextPage` false, error, cancellation, crash) or
follows `endCursor` into the next iteration; `hasNextPage` true with an
absent cursor is the protocol violation of section 7. -/
def execGo (L : Option String → LoaderResult E) (X : E → EdgeResult α)
    (cancelAt : Option Nat) : Nat → Option String → Nat → RunResult α
  | 0, _, n =>
    if checkCancel cancelAt n then ⟨[], 0, .cancelled⟩ else ⟨[], 0, .outOfFuel⟩
  | fuel + 1, c, n =>
    if checkCancel cancelAt n then ⟨[], 0, .cancelled⟩
    else
      match L c with
      | .err e =>
        if checkCancel cancelAt (n + 1) then ⟨[], 1, .cancelled⟩
        else ⟨[ListItem.error e], 1, .errored⟩
      | .ok page =>
        let r := drainEdges X cancelAt page.edges (n + 1)
        match r.step with
        | .stoppedErr => ⟨r.items, 1, .errored⟩
        | .stoppedCancel => ⟨r.items, 1, .cancelled⟩
        | .stoppedCrash => ⟨r.items, 1, .crashed⟩
        | .finished =>
          if page.pageInfo.hasNextPage then
            match page.pageInfo.endCursor with
            | none =>
              if checkCancel cancelAt r.counter then ⟨r.items, 1, .cancelled⟩
              else ⟨r.items ++ [ListItem.error SdkError.protocolViolation], 1, .errored⟩
            | some c2 =>
              let rec' := execGo L X cancelAt fuel (some c2) r.counter
              ⟨r.items ++ rec'.items, 1 + rec'.loaderCalls, rec'.endState⟩
          else ⟨r.items, 1, .done⟩

/-- Modelled from the spec: `internal.PaginationExecutor` starts the
worker with an absent cursor and checkpoint index zero. -/
def PaginationExecutor (L : Option String → LoaderResult E)
    (X : E → EdgeResult α) (cancelAt : Option Nat) (fuel : Nat) : RunResult α :=
  execGo L X cancelAt fuel none 0

/-- The loader that `ListAccessProviders` hands to the executor. -/
def listAccessProvidersLoader
    (remote : ListAccessProvidersQuery → RemoteOutcome ListAccessProvidersResponse)
    (options : AccessProviderListOptions) :
    Option String → LoaderResult AccessProviderPageEdgesEdge :=
  fun cursor => toLoaderResult (listAccessProvidersLoadPageFn remote options cursor)

/-- Embedding of `AccessProviderClient.ListAccessProviders`: applies the
option functions in order, then runs the pagination executor over the
captured loader and edge extractor. -/
def ListAccessProviders
    (remote : ListAccessProvidersQuery → RemoteOutcome ListAccessProvidersResponse)
    (ops : List (AccessProviderListOptions → AccessProviderListOptions))
    (cancelAt : Option Nat) (fuel : Nat) : RunResult AccessProvider :=
  PaginationExecutor (listAccessProvidersLoader remote (applyOptions ops))
    listAccessProvidersEdgeFn cancelAt fuel

/-- The loader that `GetAccessProviderWhoList` hands to the executor. -/
def getAccessProviderWhoListLoader
    (remote : GetAccessProviderWhoListQuery → RemoteOutcome GetAccessProviderWhoListResponse)
    (id : String) (options : AccessProviderWhoListOptions) :
    Option String → LoaderResult AccessProviderWhoListEdgesEdge :=
  fun cursor => toLoaderResult (getAccessProviderWhoListLoadPageFn remote id options cursor)

/-- Embedding of `AccessProviderClient.GetAccessProviderWhoList`. -/
def GetAccessProviderWhoList
    (remote : GetAccessProviderWhoListQuery → RemoteOutcome GetAccessProviderWhoListResponse)
    (id : String)
    (ops : List (AccessProviderWhoListOptions → AccessProviderWhoListOptions))
    (cancelAt : Option Nat) (fuel : Nat) : RunResult AccessProviderWhoListItem :=
  PaginationExecutor
    (getAccessProviderWhoListLoader remote id (ops.foldl (fun options op => op options) ⟨[]⟩))
    getAccessProviderWhoListEdgeFn cancelAt fuel

/-- The loader that `GetAccessProviderWhatDataObjectList` hands to the
executor. -/
def getAccessProviderWhatDataObjectListLoader
    (remote : GetAccessProviderWhatDataObjectListQuery →
      RemoteOutcome GetAccessProviderWhatDataObjectListResponse)
    (id : String) (options : AccessProviderWhatListOptions) :
    Option String → LoaderResult AccessProviderWhatListEdgesEdge :=
  fun cursor =>
    toLoaderResult (getAccessProviderWhatDataObjectListLoadPageFn remote id options cursor)

/-- Embedding of `AccessProviderClient.GetAccessProviderWhatDataObjectList`. -/
def GetAccessProviderWhatDataObjectList
    (remote : GetAccessProviderWhatDataObjectListQuery →
      RemoteOutcome GetAccessProviderWhatDataObjectListResponse)
    (id : String)
    (ops : List (AccessProviderWhatListOptions → AccessProviderWhatListOptions))
    (cancelAt : Option Nat) (fuel : Nat) : RunResult AccessProviderWhatListItem :=
  PaginationExecutor
    (getAccessProviderWhatDataObjectListLoader remote id
      (ops.foldl (fun options op => op options) ⟨[]⟩))
    getAccessProviderWhatDataObjectListEdgeFn cancelAt fuel

/-! ## Reified list options

For reasoning about arbitrary option sequences built from the two public
option functions, the possible options are reified as a small inductive
whose interpretation is exactly the corresponding source function. -/

/-- One caller-supplied option of `ListAccessProviders`, reified. -/
inductive ListOption
  | withOrder (input : List AccessProviderOrderByInput)
  | withFilter (input : Option AccessProviderFilterInput)
deriving DecidableEq, Repr

/-- Interpretation of a reified option as the source option function. -/
def ListOption.apply : ListOption → AccessProviderListOptions → AccessProviderListOptions
  | .withOrder input => WithAccessProviderListOrder input
  | .withFilter input => WithAccessProviderListFilter input

/-- All ordering inputs supplied by a sequence of options, concatenated
in application order. -/
def collectedOrders : List ListOption → List AccessProviderOrderByInput
  | [] => []
  | .withOrder input :: rest => input ++ collectedOrders rest
  | .withFilter _ :: rest => collectedOrders rest

/-- The filter left in place after a sequence of options: the argument of
the last `withFilter`, or the starting value when none occurs. -/
def lastFilter : List ListOption → Option AccessProviderFilterInput →
    Option AccessProviderFilterInput
  | [], f => f
  | .withOrder _ :: rest, f => lastFilter rest f
  | .withFilter input :: rest, _ => lastFilter rest input

/-- Stream elements produced by fully draining a list of pages: one item
per edge on which the extractor yields a value, in edge order within a
page and page order across pages. -/
def pagesItems (h : E → Option α) (ps : List (Page E)) : List (ListItem α) :=
  ((ps.flatMap Page.edges).filterMap h).map ListItem.item


/-- The loader, called at cursor `c`, serves the pages `ps` as a chain of
`hasNextPage = true` pages whose cursors link each page to the next,
leaving `c'` as the cursor of the call that would follow the chain. -/
def ServesChain (L : Option String → LoaderResult E) :
    Option String → List (Page E) → Option String → Prop
  | c, [], c' => c' = c
  | c, p :: rest, c' =>
    L c = LoaderResult.ok p ∧ p.pageInfo.hasNextPage = true ∧
    ∃ s, p.pageInfo.endCursor = some s ∧ ServesChain L (some s) rest c'


/-! ## Concrete instances used by the witnesses -/

/-- Demo edges, pages and remote serving two chained pages of access
providers. -/
def demoApEdge1 : AccessProviderPageEdgesEdge :=
  ⟨some "e1", some (AccessProviderNode.accessProvider ⟨"ap1"⟩)⟩

def demoApEdge2 : AccessProviderPageEdgesEdge :=
  ⟨some "e2", some (AccessProviderNode.accessProvider ⟨"ap2"⟩)⟩

def demoApPage0 : Page AccessProviderPageEdgesEdge :=
  ⟨⟨true, some "c1"⟩, [demoApEdge1]⟩

def demoApPage1 : Page AccessProviderPageEdgesEdge :=
  ⟨⟨false, none⟩, [demoApEdge2]⟩

def demoListRemote :
    ListAccessProvidersQuery → RemoteOutcome ListAccessProvidersResponse :=
  fun q =>
    match q.cursor with
    | none =>
      RemoteOutcome.ok
        (ListAccessProvidersResponse.pagedResult ⟨true, some "c1"⟩ [demoApEdge1])
    | some "c1" =>
      RemoteOutcome.ok
        (ListAccessProvidersResponse.pagedResult ⟨false, none⟩ [demoApEdge2])
    | some _ => RemoteOutcome.transportError "unknown cursor"

/-- Demo loaders and extractors over `Nat` edges. -/
def demoOkX : Nat → EdgeResult Nat := fun e => EdgeResult.ok none (some e)

def demoErrLoader : Option String → LoaderResult Nat :=
  fun _ => LoaderResult.err (SdkError.client "boom")

def demoEdgeX : Nat → EdgeResult Nat :=
  fun e =>
    if e = 99 then EdgeResult.error (SdkError.client "edge")
    else EdgeResult.ok none (some e)

def demoOnePageLoader : Option String → LoaderResult Nat :=
  fun _ => LoaderResult.ok ⟨⟨false, none⟩, [1, 99, 2]⟩

def demoCancelLoader : Option String → LoaderResult Nat :=
  fun _ => LoaderResult.ok ⟨⟨true, some "x"⟩, [5]⟩

/-- A single last page both of whose edges carry present nodes, the
second of an unexpected concrete shape. -/
def demoBadPage : Page AccessProviderPageEdgesEdge :=
  ⟨⟨false, none⟩,
   [⟨some "e1", some (AccessProviderNode.accessProvider ⟨"ap1"⟩)⟩,
    ⟨some "e2", some (AccessProviderNode.unexpectedShape "User")⟩]⟩

def demoBadRemote :
    ListAccessProvidersQuery → RemoteOutcome ListAccessProvidersResponse :=
  fun q =>
    match q.cursor with
    | none =>
      RemoteOutcome.ok
        (ListAccessProvidersResponse.pagedResult demoBadPage.pageInfo demoBadPage.edges)
    | some _ => RemoteOutcome.transportError "unknown cursor"


/-! ## Option-algebra lemmas and theorems -/

/-- Folding interpreted options from any starting configuration appends
all ordering inputs and keeps only the last filter. -/
theorem foldl_listOption_apply (ops : List ListOption)
    (o : AccessProviderListOptions) :
    ((ops.map ListOption.apply).foldl (fun options op => op options) o).order
        = o.order ++ collectedOrders ops ∧
    ((ops.map ListOption.apply).foldl (fun options op => op options) o).filter
        = lastFilter ops o.filter := by
  induction ops generalizing o with
  | nil => simp [collectedOrders, lastFilter]
  | cons op rest ih =>
    cases op with
    | withOrder input =>
      have h := ih (WithAccessProviderListOrder input o)
      simpa [collectedOrders, lastFilter, WithAccessProviderListOrder,
        ListOption.apply] using h
    | withFilter input =>
      have h := ih (WithAccessProviderListFilter input o)
      simpa [collectedOrders, lastFilter, WithAccessProviderListFilter,
        ListOption.apply] using h

/-- C10: for any sequence of applications of the two public option
functions, `WithAccessProviderListOrder` accumulates by appending, so
the final order list is the concatenation of all supplied orderings in
application order, while `WithAccessProviderListFilter` overwrites, so
only the last supplied filter survives. -/
theorem listOptions_order_appends_filter_overwrites (ops : List ListOption) :
    (applyOptions (ops.map ListOption.apply)).order = collectedOrders ops ∧
    (applyOptions (ops.map ListOption.apply)).filter = lastFilter ops none := by
  have h := foldl_listOption_apply ops ⟨[], none⟩
  simpa [applyOptions] using h

/-! ## CRUD theorems -/

/-- C9: every non-streaming method returns exactly one populated result:
for `CreateAccessProvider`, `UpdateAccessProvider` and
`GetAccessProvider` the returned provider is present if and only if the
returned error is absent, on every path including the default arm, and
`DeleteAccessProvider` returns no error exactly on its success
variant. -/
theorem crud_methods_exactly_one_result :
    (∀ remote : RemoteOutcome CreateAccessProviderResponse,
      ((CreateAccessProvider remote).1.isSome ↔ (CreateAccessProvider remote).2 = none)) ∧
    (∀ remote : RemoteOutcome UpdateAccessProviderResponse,
      ((UpdateAccessProvider remote).1.isSome ↔ (UpdateAccessProvider remote).2 = none)) ∧
    (∀ (id : String) (remote : RemoteOutcome GetAccessProviderResponse),
      ((GetAccessProvider id remote).1.isSome ↔ (GetAccessProvider id remote).2 = none)) ∧
    (∀ (id : String) (remote : RemoteOutcome DeleteAccessProviderResponse),
      (DeleteAccessProvider id remote = none ↔
        remote = RemoteOutcome.ok DeleteAccessProviderResponse.deleteAccessProvider)) := by
  refine ⟨?_, ?_, ?_, ?_⟩
  · rintro (resp | msg)
    · cases resp <;> simp [CreateAccessProvider]
    · simp [CreateAccessProvider]
  · rintro (resp | msg)
    · cases resp <;> simp [UpdateAccessProvider]
    · simp [UpdateAccessProvider]
  · rintro id (resp | msg)
    · cases resp <;> simp [GetAccessProvider]
    · simp [GetAccessProvider]
  · rintro id (resp | msg)
    · cases resp <;> simp [DeleteAccessProvider]
    · simp [DeleteAccessProvider]

/-! ## Edge-extractor theorems -/

/-- C2: contrary to the defensive-error requirement, each edge extractor
narrows a present node with an unchecked type assertion, so a node of an
unexpected concrete shape makes the extractor panic instead of returning
an error value.  This evaluates all three extractors at such an edge. -/
theorem edgeFns_panic_on_unexpected_shape :
    getAccessProviderWhoListEdgeFn
        ⟨some "whoCursor", some (WhoItemNode.unexpectedShape "SomeOtherNode")⟩
      = EdgeResult.panicked ∧
    listAccessProvidersEdgeFn
        ⟨some "apCursor", some (AccessProviderNode.unexpectedShape "SomeOtherNode")⟩
      = EdgeResult.panicked ∧
    getAccessProviderWhatDataObjectListEdgeFn
        ⟨some "whatCursor", some (WhatItemNode.unexpectedShape "SomeOtherNode")⟩
      = EdgeResult.panicked :=
  ⟨rfl, rfl, rfl⟩

/-- C4 counterexample: at an edge whose node is present but of an
unexpected shape, the `ListAccessProviders` extractor panics and returns
nothing, so it does not return the edge's cursor. -/
theorem listEdgeFn_mismatch_no_cursor :
    (¬ ∃ item, listAccessProvidersEdgeFn
        ⟨some "badCursor", some (AccessProviderNode.unexpectedShape "User")⟩
      = EdgeResult.ok (some "badCursor") item) ∧
    listAccessProvidersEdgeFn
        ⟨some "badCursor", some (AccessProviderNode.unexpectedShape "User")⟩
      = EdgeResult.panicked := by
  constructor
  · rintro ⟨item, h⟩
    simp [listAccessProvidersEdgeFn] at h
  · rfl

/-- C4 (amended): for every edge whose node is absent or of the expected
variant, the edge extractor returns that edge's cursor, and when the
node is absent it returns no item and no error, so such an edge advances
pagination but contributes zero emitted elements.  Stated for the
`ListAccessProviders` and `GetAccessProviderWhatDataObjectList`
extractors named by the claim. -/
theorem edgeFns_cursor_and_absent_node_skip
    (e : AccessProviderPageEdgesEdge) (w : AccessProviderWhatListEdgesEdge) :
    (e.node = none → listAccessProvidersEdgeFn e = EdgeResult.ok e.cursor none) ∧
    (∀ v, e.node = some (AccessProviderNode.accessProvider v) →
      listAccessProvidersEdgeFn e = EdgeResult.ok e.cursor (some v)) ∧
    (w.node = none →
      getAccessProviderWhatDataObjectListEdgeFn w = EdgeResult.ok w.cursor none) ∧
    (∀ v, w.node = some (WhatItemNode.accessWhatItem v) →
      getAccessProviderWhatDataObjectListEdgeFn w = EdgeResult.ok w.cursor (some v)) := by
  refine ⟨fun h => ?_, fun v h => ?_, fun h => ?_, fun v h => ?_⟩ <;>
    simp [listAccessProvidersEdgeFn, getAccessProviderWhatDataObjectListEdgeFn, h]

/-- Witness for the amended C4 theorem at one absent-node edge and one
expected-variant edge. -/
theorem edgeFns_cursor_and_absent_node_skip_witness :
    listAccessProvidersEdgeFn ⟨some "c1", none⟩ = EdgeResult.ok (some "c1") none ∧
    getAccessProviderWhatDataObjectListEdgeFn
        ⟨none, some (WhatItemNode.accessWhatItem ⟨"do1"⟩)⟩
      = EdgeResult.ok none (some ⟨"do1"⟩) :=
  ⟨(edgeFns_cursor_and_absent_node_skip ⟨some "c1", none⟩
      ⟨none, some (WhatItemNode.accessWhatItem ⟨"do1"⟩)⟩).1 rfl,
   (edgeFns_cursor_and_absent_node_skip ⟨some "c1", none⟩
      ⟨none, some (WhatItemNode.accessWhatItem ⟨"do1"⟩)⟩).2.2.2 ⟨"do1"⟩ rfl⟩

/-! ## Page-loader theorems -/

/-- C3: every loader invocation of the three streaming methods passes the
fixed page size 25 to the remote query, and forwards the caller-supplied
sort and filter option values unchanged; the query arguments are a fixed
function of the captured options and the received cursor, so they never
vary between calls. -/
theorem loaders_fixed_page_size_and_verbatim_options
    (options : AccessProviderListOptions)
    (whoOptions : AccessProviderWhoListOptions)
    (whatOptions : AccessProviderWhatListOptions)
    (id : String) (cursor : Option String) :
    (listAccessProvidersQuery options cursor).pageSize = some 25 ∧
    (listAccessProvidersQuery options cursor).filter = options.filter ∧
    (listAccessProvidersQuery options cursor).order = options.order ∧
    (listAccessProvidersQuery options cursor).cursor = cursor ∧
    (getAccessProviderWhoListQuery id whoOptions cursor).pageSize = some 25 ∧
    (getAccessProviderWhoListQuery id whoOptions cursor).order = whoOptions.order ∧
    (getAccessProviderWhoListQuery id whoOptions cursor).cursor = cursor ∧
    (getAccessProviderWhatDataObjectListQuery id whatOptions cursor).pageSize = some 25 ∧
    (getAccessProviderWhatDataObjectListQuery id whatOptions cursor).order = whatOptions.order ∧
    (getAccessProviderWhatDataObjectListQuery id whatOptions cursor).cursor = cursor :=
  ⟨rfl, rfl, rfl, rfl, rfl, rfl, rfl, rfl, rfl, rfl⟩

/-- Witness for C3 at concrete options and cursor. -/
theorem loaders_fixed_page_size_and_verbatim_options_witness :
    (listAccessProvidersQuery ⟨[⟨"name"⟩], some ⟨"purpose"⟩⟩ (some "c7")).pageSize
      = some 25 ∧
    (listAccessProvidersQuery ⟨[⟨"name"⟩], some ⟨"purpose"⟩⟩ (some "c7")).filter
      = some ⟨"purpose"⟩ :=
  ⟨(loaders_fixed_page_size_and_verbatim_options ⟨[⟨"name"⟩], some ⟨"purpose"⟩⟩
      ⟨[]⟩ ⟨[]⟩ "id1" (some "c7")).1,
   (loaders_fixed_page_size_and_verbatim_options ⟨[⟨"name"⟩], some ⟨"purpose"⟩⟩
      ⟨[]⟩ ⟨[]⟩ "id1" (some "c7")).2.1⟩

/-- C6: a remote response whose variant is not among the known cases makes
every page loader return an explicit error value with no page data; this
covers the default arm of each switch and the fall-through of the inner
switches of the who-list and what-list loaders. -/
theorem loaders_defensive_on_unknown_variants
    (options : AccessProviderListOptions)
    (whoOptions : AccessProviderWhoListOptions)
    (whatOptions : AccessProviderWhatListOptions)
    (id : String) (cursor : Option String) (typeName : String) :
    listAccessProvidersLoadPageFn
        (fun _ => RemoteOutcome.ok (ListAccessProvidersResponse.otherResponse typeName))
        options cursor
      = ⟨none, none, some SdkError.unreachable⟩ ∧
    getAccessProviderWhoListLoadPageFn
        (fun _ => RemoteOutcome.ok (GetAccessProviderWhoListResponse.otherResponse typeName))
        id whoOptions cursor
      = ⟨none, none, some (SdkError.unexpectedType typeName)⟩ ∧
    getAccessProviderWhoListLoadPageFn
        (fun _ => RemoteOutcome.ok
          (GetAccessProviderWhoListResponse.accessProvider (WhoListResult.otherResult typeName)))
        id whoOptions cursor
      = ⟨none, none, some SdkError.unreachable⟩ ∧
    getAccessProviderWhatDataObjectListLoadPageFn
        (fun _ => RemoteOutcome.ok
          (GetAccessProviderWhatDataObjectListResponse.otherResponse typeName))
        id whatOptions cursor
      = ⟨none, none, some (SdkError.unexpectedType typeName)⟩ ∧
    getAccessProviderWhatDataObjectListLoadPageFn
        (fun _ => RemoteOutcome.ok
          (GetAccessProviderWhatDataObjectListResponse.accessProvider
            (WhatListResult.otherResult typeName)))
        id whatOptions cursor
      = ⟨none, none, some SdkError.unreachable⟩ :=
  ⟨rfl, rfl, rfl, rfl, rfl⟩

/-- C7: whenever a page loader returns an error it returns no page info
and no edges, and the permission-denied and not-found response variants
keep their distinct error identity instead of collapsing into a generic
transport error. -/
theorem loaders_error_returns_no_data_and_keeps_kind :
    (∀ (remote : ListAccessProvidersQuery → RemoteOutcome ListAccessProvidersResponse)
        (options : AccessProviderListOptions) (cursor : Option String),
      (listAccessProvidersLoadPageFn remote options cursor).error = none ∨
        ((listAccessProvidersLoadPageFn remote options cursor).pageInfo = none ∧
          (listAccessProvidersLoadPageFn remote options cursor).edges = none)) ∧
    (∀ (remote : GetAccessProviderWhoListQuery → RemoteOutcome GetAccessProviderWhoListResponse)
        (id : String) (options : AccessProviderWhoListOptions) (cursor : Option String),
      (getAccessProviderWhoListLoadPageFn remote id options cursor).error = none ∨
        ((getAccessProviderWhoListLoadPageFn remote id options cursor).pageInfo = none ∧
          (getAccessProviderWhoListLoadPageFn remote id options cursor).edges = none)) ∧
    (∀ (remote : GetAccessProviderWhatDataObjectListQuery →
          RemoteOutcome GetAccessProviderWhatDataObjectListResponse)
        (id : String) (options : AccessProviderWhatListOptions) (cursor : Option String),
      (getAccessProviderWhatDataObjectListLoadPageFn remote id options cursor).error = none ∨
        ((getAccessProviderWhatDataObjectListLoadPageFn remote id options cursor).pageInfo = none ∧
          (getAccessProviderWhatDataObjectListLoadPageFn remote id options cursor).edges = none)) ∧
    (∀ (options : AccessProviderListOptions) (cursor : Option String) (msg : String),
      (listAccessProvidersLoadPageFn
          (fun _ => RemoteOutcome.ok (ListAccessProvidersResponse.permissionDeniedError msg))
          options cursor).error
        = some (SdkError.permissionDenied "listAccessProviders" msg)) ∧
    (∀ (id : String) (options : AccessProviderWhoListOptions) (cursor : Option String)
        (msg : String),
      (getAccessProviderWhoListLoadPageFn
          (fun _ => RemoteOutcome.ok
            (GetAccessProviderWhoListResponse.accessProvider
              (WhoListResult.permissionDeniedError msg)))
          id options cursor).error
        = some (SdkError.permissionDenied "accessProviderWhoList" msg) ∧
      (getAccessProviderWhoListLoadPageFn
          (fun _ => RemoteOutcome.ok (GetAccessProviderWhoListResponse.notFoundError msg))
          id options cursor).error
        = some (SdkError.notFound "AccessProvider" id msg) ∧
      (getAccessProviderWhoListLoadPageFn
          (fun _ => RemoteOutcome.ok (GetAccessProviderWhoListResponse.permissionDeniedError msg))
          id options cursor).error
        = some (SdkError.permissionDenied "accessProvider" msg)) ∧
    (∀ (id : String) (options : AccessProviderWhatListOptions) (cursor : Option String)
        (msg : String),
      (getAccessProviderWhatDataObjectListLoadPageFn
          (fun _ => RemoteOutcome.ok
            (GetAccessProviderWhatDataObjectListResponse.accessProvider
              (WhatListResult.permissionDeniedError msg)))
          id options cursor).error
        = some (SdkError.permissionDenied "accessProviderWhatDataObjectList" msg) ∧
      (getAccessProviderWhatDataObjectListLoadPageFn
          (fun _ => RemoteOutcome.ok
            (GetAccessProviderWhatDataObjectListResponse.notFoundError msg))
          id options cursor).error
        = some (SdkError.notFound "AccessProvider" id msg)) := by
  refine ⟨?_, ?_, ?_, fun _ _ _ => rfl, fun _ _ _ _ => ⟨rfl, rfl, rfl⟩,
    fun _ _ _ _ => ⟨rfl, rfl⟩⟩
  · intro remote options cursor
    rcases hr : remote (listAccessProvidersQuery options cursor) with resp | msg
    · cases resp <;> simp [listAccessProvidersLoadPageFn, hr]
    · simp [listAccessProvidersLoadPageFn, hr]
  · intro remote id options cursor
    rcases hr : remote (getAccessProviderWhoListQuery id options cursor) with resp | msg
    · rcases resp with inner | msg | msg | t
      · cases inner <;> simp [getAccessProviderWhoListLoadPageFn, hr]
      all_goals simp [getAccessProviderWhoListLoadPageFn, hr]
    · simp [getAccessProviderWhoListLoadPageFn, hr]
  · intro remote id options cursor
    rcases hr : remote (getAccessProviderWhatDataObjectListQuery id options cursor) with resp | msg
    · rcases resp with inner | msg | msg | t
      · cases inner <;> simp [getAccessProviderWhatDataObjectListLoadPageFn, hr]
      all_goals simp [getAccessProviderWhatDataObjectListLoadPageFn, hr]
    · simp [getAccessProviderWhatDataObjectListLoadPageFn, hr]

/-! ## Executor lemmas

Supporting lemmas about `drainEdges` and `execGo`, leading to the
stream-shape theorems of the spec's section 8. -/

/-- Without a cancellation signal no checkpoint ever observes one. -/
@[simp] theorem checkCancel_none (n : Nat) : checkCancel none n = false := rfl

/-- The cancellation signal is visible at checkpoint `n` exactly when the
firing index is at most `n`. -/
theorem checkCancel_some (k n : Nat) : checkCancel (some k) n = decide (k ≤ n) := rfl

/-- A `filterMap` whose function hits on every element preserves length. -/
theorem length_filterMap_of_isSome (h : α → Option β) (l : List α)
    (hl : ∀ x ∈ l, (h x).isSome) : (l.filterMap h).length = l.length := by
  induction l with
  | nil => rfl
  | cons x rest ih =>
    have hx := hl x (by simp)
    obtain ⟨v, hv⟩ := Option.isSome_iff_exists.mp hx
    have hrest : ∀ y ∈ rest, (h y).isSome := fun y hy => hl y (by simp [hy])
    simp [List.filterMap_cons, hv, ih hrest]

theorem pagesItems_nil (h : E → Option α) : pagesItems h [] = [] := rfl

theorem pagesItems_cons (h : E → Option α) (p : Page E) (rest : List (Page E)) :
    pagesItems h (p :: rest)
      = (p.edges.filterMap h).map ListItem.item ++ pagesItems h rest := by
  simp [pagesItems]

/-- Draining edges on which the extractor always yields an item or skips
finishes the page, pushing exactly the extracted items in edge order. -/
theorem drainEdges_none_ok (X : E → EdgeResult α) (g : E → Option String)
    (h : E → Option α) (es : List E) (n : Nat)
    (hX : ∀ e ∈ es, X e = EdgeResult.ok (g e) (h e)) :
    drainEdges X none es n
      = ⟨(es.filterMap h).map ListItem.item, n + (es.filterMap h).length,
         DrainStep.finished⟩ := by
  induction es generalizing n with
  | nil => simp [drainEdges]
  | cons e rest ih =>
    have he := hX e (by simp)
    have hrest : ∀ x ∈ rest, X x = EdgeResult.ok (g x) (h x) :=
      fun x hx => hX x (by simp [hx])
    cases hh : h e with
    | none =>
      rw [hh] at he
      simp [drainEdges, he, List.filterMap_cons, hh, ih n hrest]
    | some v =>
      rw [hh] at he
      simp [drainEdges, he, List.filterMap_cons, hh, ih (n + 1) hrest]
      omega

/-- Draining a page whose edges are well behaved up to one failing edge
pushes the items extracted before the failure, then exactly one error
element, and stops the page with the error outcome. -/
theorem drainEdges_none_err (X : E → EdgeResult α) (g : E → Option String)
    (h : E → Option α) (pre : List E) (bad : E) (post : List E) (n : Nat)
    (err : SdkError)
    (hpre : ∀ e ∈ pre, X e = EdgeResult.ok (g e) (h e))
    (hbad : X bad = EdgeResult.error err) :
    drainEdges X none (pre ++ bad :: post) n
      = ⟨(pre.filterMap h).map ListItem.item ++ [ListItem.error err],
         n + (pre.filterMap h).length + 1, DrainStep.stoppedErr⟩ := by
  induction pre generalizing n with
  | nil => simp [drainEdges, hbad]
  | cons e rest ih =>
    have he := hpre e (by simp)
    have hrest : ∀ x ∈ rest, X x = EdgeResult.ok (g x) (h x) :=
      fun x hx => hpre x (by simp [hx])
    cases hh : h e with
    | none =>
      rw [hh] at he
      simp [drainEdges, he, List.filterMap_cons, hh, ih n hrest]
    | some v =>
      rw [hh] at he
      simp [drainEdges, he, List.filterMap_cons, hh, ih (n + 1) hrest]
      omega

/-- With no cancellation signal, the emitted elements and the outcome of a
drain do not depend on the checkpoint index. -/
theorem drainEdges_none_indep (X : E → EdgeResult α) (es : List E) (n m : Nat) :
    (drainEdges X none es n).items = (drainEdges X none es m).items ∧
    (drainEdges X none es n).step = (drainEdges X none es m).step := by
  induction es generalizing n m with
  | nil => exact ⟨rfl, rfl⟩
  | cons e rest ih =>
    cases hx : X e with
    | panicked => simp [drainEdges, hx]
    | error err => simp [drainEdges, hx]
    | ok cur item =>
      cases item with
      | none => simpa [drainEdges, hx] using ih n m
      | some v =>
        obtain ⟨hi, hs⟩ := ih (n + 1) (m + 1)
        simp [drainEdges, hx, hi, hs]

/-- With no cancellation signal, an executor run does not depend on the
checkpoint index it starts from. -/
theorem execGo_none_indep (L : Option String → LoaderResult E)
    (X : E → EdgeResult α) (fuel : Nat) (c : Option String) (n m : Nat) :
    execGo L X none fuel c n = execGo L X none fuel c m := by
  induction fuel generalizing c n m with
  | zero => rfl
  | succ fuel ih =>
    simp only [execGo, checkCancel_none, Bool.false_eq_true, if_false]
    cases hL : L c with
    | err e => rfl
    | ok page =>
      obtain ⟨hi, hs⟩ := drainEdges_none_indep X page.edges (n + 1) (m + 1)
      cases h2 : (drainEdges X none page.edges (m + 1)).step with
      | stoppedErr => simp only [hs.trans h2, h2, hi]
      | stoppedCancel => simp only [hs.trans h2, h2, hi]
      | stoppedCrash => simp only [hs.trans h2, h2, hi]
      | finished =>
        simp only [hs.trans h2, h2, hi]
        cases hnp : page.pageInfo.hasNextPage with
        | false => simp [hnp, hi]
        | true =>
          cases hc : page.pageInfo.endCursor with
          | none => simp [hnp, hc, hi]
          | some c2 =>
            simp [hnp, hc, hi,
              ih (some c2) (drainEdges X none page.edges (n + 1)).counter
                (drainEdges X none page.edges (m + 1)).counter]

/-- Unfolding one successful executor iteration that continues to a next
page. -/
theorem execGo_step_next (L : Option String → LoaderResult E)
    (X : E → EdgeResult α) (fuel n n2 : Nat) (c : Option String) (p : Page E)
    (its : List (ListItem α)) (s : String)
    (hL : L c = LoaderResult.ok p)
    (hdrain : drainEdges X none p.edges (n + 1) = ⟨its, n2, DrainStep.finished⟩)
    (hnext : p.pageInfo.hasNextPage = true)
    (hcur : p.pageInfo.endCursor = some s) :
    execGo L X none (fuel + 1) c n
      = ⟨its ++ (execGo L X none fuel (some s) n2).items,
         1 + (execGo L X none fuel (some s) n2).loaderCalls,
         (execGo L X none fuel (some s) n2).endState⟩ := by
  simp [execGo, hL, hdrain, hnext, hcur]

/-- Unfolding one successful executor iteration on a last page. -/
theorem execGo_step_done (L : Option String → LoaderResult E)
    (X : E → EdgeResult α) (fuel n n2 : Nat) (c : Option String) (p : Page E)
    (its : List (ListItem α))
    (hL : L c = LoaderResult.ok p)
    (hdrain : drainEdges X none p.edges (n + 1) = ⟨its, n2, DrainStep.finished⟩)
    (hlast : p.pageInfo.hasNextPage = false) :
    execGo L X none (fuel + 1) c n = ⟨its, 1, EndState.done⟩ := by
  simp [execGo, hL, hdrain, hlast]

/-- Unfolding one executor iteration whose loader call fails. -/
theorem execGo_step_loader_err (L : Option String → LoaderResult E)
    (X : E → EdgeResult α) (fuel n : Nat) (c : Option String) (e : SdkError)
    (hL : L c = LoaderResult.err e) :
    execGo L X none (fuel + 1) c n
      = ⟨[ListItem.error e], 1, EndState.errored⟩ := by
  simp [execGo, hL]

/-- Unfolding one executor iteration whose drain stops on an extractor
error. -/
theorem execGo_step_drain_err (L : Option String → LoaderResult E)
    (X : E → EdgeResult α) (fuel n n2 : Nat) (c : Option String) (p : Page E)
    (its : List (ListItem α))
    (hL : L c = LoaderResult.ok p)
    (hdrain : drainEdges X none p.edges (n + 1) = ⟨its, n2, DrainStep.stoppedErr⟩) :
    execGo L X none (fuel + 1) c n = ⟨its, 1, EndState.errored⟩ := by
  simp [execGo, hL, hdrain]

/-- Running the executor across a served chain of pages drains them in
order and continues, with the chain's items and loader calls prepended
to whatever the continuation produces. -/
theorem execGo_chain (L : Option String → LoaderResult E) (X : E → EdgeResult α)
    (g : E → Option String) (h : E → Option α) (ps : List (Page E))
    (c c' : Option String) (fuel n : Nat)
    (hchain : ServesChain L c ps c')
    (hX : ∀ p ∈ ps, ∀ e ∈ p.edges, X e = EdgeResult.ok (g e) (h e)) :
    execGo L X none (ps.length + fuel) c n
      = ⟨pagesItems h ps ++ (execGo L X none fuel c' 0).items,
         ps.length + (execGo L X none fuel c' 0).loaderCalls,
         (execGo L X none fuel c' 0).endState⟩ := by
  induction ps generalizing c n with
  | nil =>
    have hc : c' = c := hchain
    subst hc
    rw [execGo_none_indep L X (List.length [] + fuel) c' n 0]
    simp [pagesItems]
  | cons p rest ih =>
    obtain ⟨hL, hnext, s, hs, hrest⟩ := hchain
    have hXp : ∀ e ∈ p.edges, X e = EdgeResult.ok (g e) (h e) :=
      fun e he => hX p (by simp) e he
    have hXrest : ∀ q ∈ rest, ∀ e ∈ q.edges, X e = EdgeResult.ok (g e) (h e) :=
      fun q hq e he => hX q (by simp [hq]) e he
    have hdrain := drainEdges_none_ok X g h p.edges (n + 1) hXp
    have hfuel : (p :: rest).length + fuel = (rest.length + fuel) + 1 := by
      simp [List.length_cons]
      omega
    rw [hfuel,
      execGo_step_next L X (rest.length + fuel) n
        (n + 1 + (p.edges.filterMap h).length) c p
        ((p.edges.filterMap h).map ListItem.item) s hL hdrain hnext hs,
      ih (some s) (n + 1 + (p.edges.filterMap h).length) hrest hXrest]
    simp [pagesItems_cons, List.length_cons]
    omega

/-- Concatenating one last page to a drained chain appends its items. -/
theorem pagesItems_append_single (h : E → Option α) (ps : List (Page E)) (p : Page E) :
    pagesItems h (ps ++ [p])
      = pagesItems h ps ++ (p.edges.filterMap h).map ListItem.item := by
  simp [pagesItems]

/-- An edge whose node is present and of the expected shape is extracted
to its cursor and its node's value. -/
theorem listEdgeFn_of_isSome (e : AccessProviderPageEdgesEdge)
    (he : (nodeItem e).isSome) :
    listAccessProvidersEdgeFn e = EdgeResult.ok e.cursor (nodeItem e) := by
  cases hn : e.node with
  | none => simp [nodeItem, hn] at he
  | some node =>
    cases node with
    | accessProvider v => simp [listAccessProvidersEdgeFn, nodeItem, hn]
    | unexpectedShape t => simp [nodeItem, hn] at he

/-! ## Stream-shape theorems -/

/-- C1 counterexample: a single last page both of whose edges carry
present nodes, the second of an unexpected concrete shape, refutes the
claim as stated: instead of two items followed by normal closure, the
stream carries one item and the worker crashes on the unchecked type
assertion, losing the second edge's item. -/
theorem listAccessProviders_mismatch_not_exhaustive :
    demoBadPage.pageInfo.hasNextPage = false ∧
    demoBadPage.edges.length = 2 ∧
    (∀ e ∈ demoBadPage.edges, e.node.isSome) ∧
    (ListAccessProviders demoBadRemote [] none 1).items
      = [ListItem.item ⟨"ap1"⟩] ∧
    (ListAccessProviders demoBadRemote [] none 1).items.length ≠ 2 ∧
    (ListAccessProviders demoBadRemote [] none 1).endState = EndState.crashed ∧
    (ListAccessProviders demoBadRemote [] none 1).endState ≠ EndState.done := by
  decide

/-- C1 (amended): when the loader built by `ListAccessProviders` serves a
chain of pages whose last page has `hasNextPage = false` and all edges
carry present nodes of the expected variant, consuming the stream yields
exactly one item per edge, in edge order within each page and page order
across pages, with one loader call per page, after which the stream
closes normally.  (A present node of an unexpected concrete shape
instead crashes the run through the panic recorded under C2.) -/
theorem listAccessProviders_exhaustive
    (remote : ListAccessProvidersQuery → RemoteOutcome ListAccessProvidersResponse)
    (ops : List (AccessProviderListOptions → AccessProviderListOptions))
    (ps : List (Page AccessProviderPageEdgesEdge))
    (plast : Page AccessProviderPageEdgesEdge) (c' : Option String)
    (hchain : ServesChain (listAccessProvidersLoader remote (applyOptions ops)) none ps c')
    (hlast : listAccessProvidersLoader remote (applyOptions ops) c' = LoaderResult.ok plast)
    (hend : plast.pageInfo.hasNextPage = false)
    (hnodes : ∀ p ∈ ps ++ [plast], ∀ e ∈ p.edges, (nodeItem e).isSome) :
    (ListAccessProviders remote ops none (ps.length + 1)).items
        = (((ps ++ [plast]).flatMap Page.edges).filterMap nodeItem).map ListItem.item ∧
    (ListAccessProviders remote ops none (ps.length + 1)).items.length
        = ((ps ++ [plast]).flatMap Page.edges).length ∧
    (ListAccessProviders remote ops none (ps.length + 1)).loaderCalls = ps.length + 1 ∧
    (ListAccessProviders remote ops none (ps.length + 1)).endState = EndState.done := by
  set L := listAccessProvidersLoader remote (applyOptions ops) with hLdef
  have hX : ∀ p ∈ ps, ∀ e ∈ p.edges,
      listAccessProvidersEdgeFn e = EdgeResult.ok e.cursor (nodeItem e) :=
    fun p hp e he => listEdgeFn_of_isSome e (hnodes p (by simp [hp]) e he)
  have hXlast : ∀ e ∈ plast.edges,
      listAccessProvidersEdgeFn e = EdgeResult.ok e.cursor (nodeItem e) :=
    fun e he => listEdgeFn_of_isSome e (hnodes plast (by simp) e he)
  have hdrain : drainEdges listAccessProvidersEdgeFn none plast.edges 1
      = ⟨(plast.edges.filterMap nodeItem).map ListItem.item,
         1 + (plast.edges.filterMap nodeItem).length, DrainStep.finished⟩ :=
    drainEdges_none_ok listAccessProvidersEdgeFn (fun e => e.cursor) nodeItem
      plast.edges 1 hXlast
  have hr : execGo L listAccessProvidersEdgeFn none 1 c' 0
      = ⟨(plast.edges.filterMap nodeItem).map ListItem.item, 1, EndState.done⟩ :=
    execGo_step_done L listAccessProvidersEdgeFn 0 0
      (1 + (plast.edges.filterMap nodeItem).length) c' plast
      ((plast.edges.filterMap nodeItem).map ListItem.item) hlast hdrain hend
  have hrun : ListAccessProviders remote ops none (ps.length + 1)
      = execGo L listAccessProvidersEdgeFn none (ps.length + 1) none 0 := rfl
  have hchainRun := execGo_chain L listAccessProvidersEdgeFn
    (fun e => e.cursor) nodeItem ps none c' 1 0 hchain hX
  rw [hrun, hchainRun, hr]
  have hall : ∀ e ∈ (ps ++ [plast]).flatMap Page.edges, (nodeItem e).isSome := by
    intro e he
    obtain ⟨p, hp, hep⟩ := List.mem_flatMap.mp he
    exact hnodes p hp e hep
  refine ⟨?_, ?_, ?_, rfl⟩
  · rw [show (((ps ++ [plast]).flatMap Page.edges).filterMap nodeItem).map ListItem.item
        = pagesItems nodeItem (ps ++ [plast]) from rfl]
    rw [pagesItems_append_single]
  · have hlen := length_filterMap_of_isSome nodeItem
      ((ps ++ [plast]).flatMap Page.edges) hall
    simp only [RunResult.items]
    rw [show pagesItems nodeItem ps
          ++ (plast.edges.filterMap nodeItem).map ListItem.item
        = pagesItems nodeItem (ps ++ [plast]) from (pagesItems_append_single _ _ _).symm]
    simpa [pagesItems] using hlen
  · simp

/-- C5: if the loader call after a successfully served chain fails, or an
edge extractor fails partway through a page, the stream consists of
exactly the items produced strictly before the failing call, then exactly
one error element, and then closes; the failing loader call is the last
loader call issued, so nothing is retried. -/
theorem executor_single_error_termination
    (L : Option String → LoaderResult E) (X : E → EdgeResult α)
    (g : E → Option String) (h : E → Option α) :
    (∀ (ps : List (Page E)) (c' : Option String) (e : SdkError),
      ServesChain L none ps c' →
      (∀ p ∈ ps, ∀ e' ∈ p.edges, X e' = EdgeResult.ok (g e') (h e')) →
      L c' = LoaderResult.err e →
      execGo L X none (ps.length + 1) none 0
        = ⟨pagesItems h ps ++ [ListItem.error e], ps.length + 1, EndState.errored⟩) ∧
    (∀ (ps : List (Page E)) (c' : Option String) (q : Page E)
        (pre : List E) (bad : E) (post : List E) (e : SdkError),
      ServesChain L none ps c' →
      (∀ p ∈ ps, ∀ e' ∈ p.edges, X e' = EdgeResult.ok (g e') (h e')) →
      L c' = LoaderResult.ok q →
      q.edges = pre ++ bad :: post →
      (∀ e' ∈ pre, X e' = EdgeResult.ok (g e') (h e')) →
      X bad = EdgeResult.error e →
      execGo L X none (ps.length + 1) none 0
        = ⟨pagesItems h ps ++ ((pre.filterMap h).map ListItem.item ++ [ListItem.error e]),
           ps.length + 1, EndState.errored⟩) := by
  constructor
  · intro ps c' e hchain hX hfail
    have hr : execGo L X none 1 c' 0
        = ⟨[ListItem.error e], 1, EndState.errored⟩ :=
      execGo_step_loader_err L X 0 0 c' e hfail
    rw [execGo_chain L X g h ps none c' 1 0 hchain hX, hr]
  · intro ps c' q pre bad post e hchain hX hq hsplit hpre hbad
    have hdrain : drainEdges X none q.edges 1
        = ⟨(pre.filterMap h).map ListItem.item ++ [ListItem.error e],
           1 + (pre.filterMap h).length + 1, DrainStep.stoppedErr⟩ := by
      rw [hsplit]
      exact drainEdges_none_err X g h pre bad post 1 e hpre hbad
    have hr : execGo L X none 1 c' 0
        = ⟨(pre.filterMap h).map ListItem.item ++ [ListItem.error e], 1,
           EndState.errored⟩ :=
      execGo_step_drain_err L X 0 0 (1 + (pre.filterMap h).length + 1) c' q
        ((pre.filterMap h).map ListItem.item ++ [ListItem.error e]) hq hdrain
    rw [execGo_chain L X g h ps none c' 1 0 hchain hX, hr]

/-! ## Cancellation theorems -/

/-- The checkpoint index after a drain counts one checkpoint per pushed
element. -/
theorem drainEdges_counter (X : E → EdgeResult α) (ca : Option Nat)
    (es : List E) (n : Nat) :
    (drainEdges X ca es n).counter = n + (drainEdges X ca es n).items.length := by
  induction es generalizing n with
  | nil => simp [drainEdges]
  | cons e rest ih =>
    cases hx : X e with
    | panicked => simp [drainEdges, hx]
    | error err =>
      cases hc : checkCancel ca n with
      | false => simp [drainEdges, hx, hc]
      | true => simp [drainEdges, hx, hc]
    | ok cur item =>
      cases item with
      | none => simpa [drainEdges, hx] using ih n
      | some v =>
        cases hc : checkCancel ca n with
        | false =>
          have := ih (n + 1)
          simp [drainEdges, hx, hc, this]
          omega
        | true => simp [drainEdges, hx, hc]

/-- Under a cancellation signal firing at checkpoint `k`, no drain pushes
past checkpoint `k`. -/
theorem drainEdges_cancel_bound (X : E → EdgeResult α) (k : Nat)
    (es : List E) (n : Nat) :
    (drainEdges X (some k) es n).counter ≤ max n k := by
  induction es generalizing n with
  | nil => simp [drainEdges]
  | cons e rest ih =>
    cases hx : X e with
    | panicked => simp [drainEdges, hx]
    | error err =>
      cases hc : checkCancel (some k) n with
      | true => simp [drainEdges, hx, hc]
      | false =>
        have hn : n < k := by simpa [checkCancel_some] using hc
        simp [drainEdges, hx, hc]
        omega
    | ok cur item =>
      cases item with
      | none => simpa [drainEdges, hx] using ih n
      | some v =>
        cases hc : checkCancel (some k) n with
        | true => simp [drainEdges, hx, hc]
        | false =>
          have hn : n < k := by simpa [checkCancel_some] using hc
          have := ih (n + 1)
          simp [drainEdges, hx, hc]
          omega

/-- Under a cancellation signal firing at checkpoint `k`, the total number
of checkpoint-consuming events of a run started at checkpoint `n` (one
per loader call and one per pushed element) never passes `k`. -/
theorem execGo_cancel_bound (L : Option String → LoaderResult E)
    (X : E → EdgeResult α) (k : Nat) :
    ∀ (fuel : Nat) (c : Option String) (n : Nat),
      n + (execGo L X (some k) fuel c n).items.length
        + (execGo L X (some k) fuel c n).loaderCalls ≤ max n k := by
  intro fuel
  induction fuel with
  | zero =>
    intro c n
    cases hc : checkCancel (some k) n with
    | true => simp [execGo, hc]
    | false => simp [execGo, hc]
  | succ fuel ih =>
    intro c n
    cases hc : checkCancel (some k) n with
    | true => simp [execGo, hc]
    | false =>
      have hn : n < k := by simpa [checkCancel_some] using hc
      cases hL : L c with
      | err e =>
        cases hc2 : checkCancel (some k) (n + 1) with
        | true =>
          simp [execGo, hc, hc2, hL]
          omega
        | false =>
          have hn2 : n + 1 < k := by simpa [checkCancel_some] using hc2
          simp [execGo, hc, hc2, hL]
          omega
      | ok page =>
        have hcnt := drainEdges_counter X (some k) page.edges (n + 1)
        have hbd := drainEdges_cancel_bound X k page.edges (n + 1)
        cases hstep : (drainEdges X (some k) page.edges (n + 1)).step with
        | stoppedErr =>
          simp [execGo, hc, hL, hstep]
          omega
        | stoppedCancel =>
          simp [execGo, hc, hL, hstep]
          omega
        | stoppedCrash =>
          simp [execGo, hc, hL, hstep]
          omega
        | finished =>
          cases hnp : page.pageInfo.hasNextPage with
          | false =>
            simp [execGo, hc, hL, hstep, hnp]
            omega
          | true =>
            cases hcur : page.pageInfo.endCursor with
            | none =>
              cases hc3 : checkCancel (some k)
                  (drainEdges X (some k) page.edges (n + 1)).counter with
              | true =>
                simp [execGo, hc, hL, hstep, hnp, hcur, hc3]
                omega
              | false =>
                have hn3 : (drainEdges X (some k) page.edges (n + 1)).counter < k := by
                  simpa [checkCancel_some] using hc3
                simp [execGo, hc, hL, hstep, hnp, hcur, hc3]
                omega
            | some c2 =>
              have hrec := ih (some c2) (drainEdges X (some k) page.edges (n + 1)).counter
              simp [execGo, hc, hL, hstep, hnp, hcur]
              omega

/-- With enough fuel relative to the cancellation index, a cancelled run
always reaches a terminal state: the modelling budget is never the
reason the worker stops. -/
theorem execGo_cancel_terminates (L : Option String → LoaderResult E)
    (X : E → EdgeResult α) (k : Nat) :
    ∀ (fuel : Nat) (c : Option String) (n : Nat), k + 1 ≤ fuel + n →
      (execGo L X (some k) fuel c n).endState ≠ EndState.outOfFuel := by
  intro fuel
  induction fuel with
  | zero =>
    intro c n hfn
    have hc : checkCancel (some k) n = true := by
      simp [checkCancel_some]
      omega
    simp [execGo, hc]
  | succ fuel ih =>
    intro c n hfn
    cases hc : checkCancel (some k) n with
    | true => simp [execGo, hc]
    | false =>
      cases hL : L c with
      | err e =>
        cases hc2 : checkCancel (some k) (n + 1) with
        | true => simp [execGo, hc, hc2, hL]
        | false => simp [execGo, hc, hc2, hL]
      | ok page =>
        have hcnt := drainEdges_counter X (some k) page.edges (n + 1)
        cases hstep : (drainEdges X (some k) page.edges (n + 1)).step with
        | stoppedErr => simp [execGo, hc, hL, hstep]
        | stoppedCancel => simp [execGo, hc, hL, hstep]
        | stoppedCrash => simp [execGo, hc, hL, hstep]
        | finished =>
          cases hnp : page.pageInfo.hasNextPage with
          | false => simp [execGo, hc, hL, hstep, hnp]
          | true =>
            cases hcur : page.pageInfo.endCursor with
            | none =>
              cases hc3 : checkCancel (some k)
                  (drainEdges X (some k) page.edges (n + 1)).counter with
              | true => simp [execGo, hc, hL, hstep, hnp, hcur, hc3]
              | false => simp [execGo, hc, hL, hstep, hnp, hcur, hc3]
            | some c2 =>
              have hrec := ih (some c2)
                (drainEdges X (some k) page.edges (n + 1)).counter (by omega)
              simp [execGo, hc, hL, hstep, hnp, hcur]
              exact hrec

/-- C8: when the cancellation signal becomes visible at checkpoint `k`
(checkpoints sit immediately before each loader call and immediately
before each element push), a run with enough fuel performs at most `k`
checkpoint-consuming events in total — so no loader call is issued and
no element is pushed at or after the observing checkpoint, the stream
closes within one checkpoint interval — and the worker always reaches a
terminal state (no leak). -/
theorem executor_cancellation_checkpoint_bound
    (L : Option String → LoaderResult E) (X : E → EdgeResult α)
    (k fuel : Nat) (c : Option String) (hfuel : k + 1 ≤ fuel) :
    (execGo L X (some k) fuel c 0).items.length
        + (execGo L X (some k) fuel c 0).loaderCalls ≤ k ∧
    (execGo L X (some k) fuel c 0).endState ≠ EndState.outOfFuel := by
  constructor
  · have h := execGo_cancel_bound L X k fuel c 0
    omega
  · exact execGo_cancel_terminates L X k fuel c 0 (by omega)

/-- Witness for C1 on a concrete two-page remote. -/
theorem listAccessProviders_exhaustive_witness :
    (ListAccessProviders demoListRemote [] none 2).items
      = [ListItem.item ⟨"ap1"⟩, ListItem.item ⟨"ap2"⟩] ∧
    (ListAccessProviders demoListRemote [] none 2).loaderCalls = 2 ∧
    (ListAccessProviders demoListRemote [] none 2).endState = EndState.done := by
  have h := listAccessProviders_exhaustive demoListRemote [] [demoApPage0]
    demoApPage1 (some "c1") ⟨rfl, rfl, "c1", rfl, rfl⟩ rfl rfl (by decide)
  exact ⟨h.1.trans (by decide), h.2.2.1.trans rfl, h.2.2.2⟩

/-- Witness for C5: a failing first loader call, and a failing extractor
in the middle of a page. -/
theorem executor_single_error_termination_witness :
    execGo demoErrLoader demoOkX none 1 none 0
      = ⟨[ListItem.error (SdkError.client "boom")], 1, EndState.errored⟩ ∧
    execGo demoOnePageLoader demoEdgeX none 1 none 0
      = ⟨[ListItem.item 1, ListItem.error (SdkError.client "edge")], 1,
         EndState.errored⟩ := by
  constructor
  · exact ((executor_single_error_termination demoErrLoader demoOkX
      (fun _ => none) (fun e => some e)).1 [] none (SdkError.client "boom")
      rfl (by simp) rfl).trans (by decide)
  · exact ((executor_single_error_termination demoOnePageLoader demoEdgeX
      (fun _ => none) (fun e => some e)).2 [] none ⟨⟨false, none⟩, [1, 99, 2]⟩
      [1] 99 [2] (SdkError.client "edge") rfl (by simp) rfl rfl (by decide)
      rfl).trans (by decide)

/-- Witness for C8 with the signal firing at checkpoint 2 over an endless
loader. -/
theorem executor_cancellation_checkpoint_bound_witness :
    (execGo demoCancelLoader demoOkX (some 2) 3 none 0).items.length
        + (execGo demoCancelLoader demoOkX (some 2) 3 none 0).loaderCalls ≤ 2 ∧
    (execGo demoCancelLoader demoOkX (some 2) 3 none 0).endState
        ≠ EndState.outOfFuel :=
  executor_cancellation_checkpoint_bound demoCancelLoader demoOkX 2 3 none
    (by decide)

end RaitoSdk
